import Mathlib

/-!
Shallow embedding of the FlowForge workflow engine core
(`app/engine/models.py`, `app/engine/registry.py`, `app/engine/runner.py`).

Python dynamic values are modelled by the `Value` type below (null, bool,
int, str, dict); a Python dict is an `Entries` chain, an association list
in insertion order.  Raising an exception is modelled by `Except PyErr`.
The engine is sequential — `run_graph` awaits each node invocation to
completion before evaluating edges — so `await` is the identity in this
embedding.
-/

namespace FlowForge

mutual

/-- The universe of Python values the engine manipulates: `None`, `bool`,
`int`, `str` and `dict`.  Python's numeric-tower coercion (`True == 1`)
and the key-order insensitivity of dict equality are identified with
structural equality here; no property below depends on those corner
cases.  Lists are omitted: the engine never constructs one. -/
inductive Value where
  | null : Value
  | bool (b : Bool) : Value
  | int (n : Int) : Value
  | str (s : String) : Value
  | map (entries : Entries) : Value
deriving DecidableEq, Repr

/-- The bindings of a Python dict with string keys, in insertion order. -/
inductive Entries where
  | nil : Entries
  | cons (key : String) (val : Value) (rest : Entries) : Entries
deriving DecidableEq, Repr

end

/-- A Python dict with string keys (the engine's state maps and diffs). -/
abbrev Dict := Entries

/-- First binding of key `k`, if any (a Python dict holds at most one). -/
def dict_get? (d : Dict) (k : String) : Option Value :=
  match d with
  | .nil => none
  | .cons k' v rest => if k' == k then some v else dict_get? rest k

/-- Python `d.get(k)`: the stored value, or `None` when the key is absent. -/
def dict_get (d : Dict) (k : String) : Value :=
  match dict_get? d k with
  | some v => v
  | none => .null

/-- Python `d[k] = v`: replace the binding in place, or append a new one. -/
def dict_set (d : Dict) (k : String) (v : Value) : Dict :=
  match d with
  | .nil => .cons k v .nil
  | .cons k' v' rest =>
      if k' == k then .cons k v rest else .cons k' v' (dict_set rest k v)

/-- The keys of a dict, in insertion order (Python `d.keys()`). -/
def dict_keys (d : Dict) : List String :=
  match d with
  | .nil => []
  | .cons k _ rest => k :: dict_keys rest

/-- Python truthiness of an optional string: `None` and `""` are falsy. -/
def truthy_str (s : Option String) : Bool :=
  match s with
  | none => false
  | some s => s != ""

/-- The exceptions the engine can raise.  Python uses `KeyError` /
`ValueError` / `TypeError` with message strings; this embedding keeps the
carried key structurally instead of inside the message. -/
inductive PyErr where
  /-- The `KeyError` of runner.py:125: node `name` not found in graph. -/
  | nodeNotFoundInGraph (name : String) : PyErr
  /-- The `KeyError` of registry.py:24: node function `name` is not registered. -/
  | nodeFunctionNotRegistered (name : String) : PyErr
  /-- The `KeyError` of registry.py:30: tool `name` is not registered. -/
  | toolNotRegistered (name : String) : PyErr
  /-- The `ValueError` of runner.py:98: tool node `nodeName` missing a tool name. -/
  | missingToolName (nodeName : String) : PyErr
  /-- `TypeError` raised by a Python rich comparison between unorderable
  values (e.g. `None < 5`) inside `_compare`. -/
  | typeError : PyErr
  /-- An arbitrary exception raised by a step implementation itself. -/
  | userError (code : Nat) : PyErr
deriving DecidableEq, Repr

/-- Is this the runner's node-not-in-graph `KeyError`? -/
def PyErr.isNodeNotFoundInGraph (e : PyErr) : Bool :=
  match e with
  | .nodeNotFoundInGraph _ => true
  | _ => false

/-- Is this one of the two registry `KeyError`s (function-not-registered)? -/
def PyErr.isRegistryNotFound (e : PyErr) : Bool :=
  match e with
  | .nodeFunctionNotRegistered _ => true
  | .toolNotRegistered _ => true
  | _ => false

/-- Is this the `ValueError` for a TOOL node without a tool name? -/
def PyErr.isMissingToolName (e : PyErr) : Bool :=
  match e with
  | .missingToolName _ => true
  | _ => false

/-! ## models.py -/

/-- `NodeType` (models.py): which registry namespace resolves a node. -/
inductive NodeType where
  | computation : NodeType
  | tool : NodeType
deriving DecidableEq, Repr

/-- `NodeConfig` (models.py). -/
structure NodeConfig where
  name : String
  type : NodeType
  tool_name : Option String
  description : Option String
deriving DecidableEq, Repr

/-- `EdgeConfig` (models.py): a directed edge with an optional condition.
`operator` is one of `"=="`, `"!="`, `"<"`, `">"`, `"<="`, `">="` when
present; `value` is `Value.null` when the Python field is `None`. -/
structure EdgeConfig where
  source : String
  target : String
  condition_key : Option String
  operator : Option String
  value : Value
deriving DecidableEq, Repr

/-- `Graph` (models.py).  `nodes` is a dict name → NodeConfig, `edges` an
ordered list. -/
structure Graph where
  id : String
  name : Option String
  entrypoint : String
  nodes : List (String × NodeConfig)
  edges : List EdgeConfig
deriving DecidableEq, Repr

/-- Wall-clock instants (`datetime.utcnow()`) carry no information the
engine ever reads, so they are modelled as `Unit`. -/
abbrev Timestamp := Unit

/-- `StepLog` (models.py): one audit record per executed node. -/
structure StepLog where
  node : String
  started_at : Timestamp
  finished_at : Timestamp
  state_diff : Dict
  info : Option String
deriving DecidableEq, Repr

/-- Membership test / lookup in `graph.nodes` (`current in graph.nodes`,
`graph.nodes[current]`). -/
def lookup_node (g : Graph) (name : String) : Option NodeConfig :=
  match g.nodes.find? (fun p => p.1 == name) with
  | some p => some p.2
  | none => none

/-! ## registry.py -/

/-- How a registered Python callable executes.  `async` is a coroutine
function (`asyncio.iscoroutinefunction` is true); `sync` is a plain
function; `syncCoro` is a plain function whose returned value is itself a
coroutine that the adapter awaits (registry.py:43-44).  Awaiting is the
identity in this sequential embedding, so the three styles differ only in
which branch of `call_maybe_async` they take. -/
inductive CallStyle where
  | sync : CallStyle
  | async : CallStyle
  | syncCoro : CallStyle
deriving DecidableEq, Repr

/-- What a step implementation returns: `None` (in-place mutation
convention) or a dict (full replacement). -/
inductive RetVal where
  | noneV : RetVal
  | dictV (d : Dict) : RetVal
deriving DecidableEq, Repr

/-- A registered node/tool function.  `run state` yields the content of
the dict object that was passed in after the call (in-place mutations
applied) together with the returned value, or the exception the function
raised. -/
structure PyFunc where
  style : CallStyle
  run : Dict → Except PyErr (Dict × RetVal)

/-- The two registry namespaces (`NODE_REGISTRY`, `TOOL_REGISTRY`),
passed explicitly since the embedding has no process-wide state. -/
structure Registry where
  nodes : List (String × PyFunc)
  tools : List (String × PyFunc)

/-- Lookup in one registry namespace. -/
def lookup_fn (ns : List (String × PyFunc)) (name : String) : Option PyFunc :=
  match ns with
  | [] => none
  | (k, f) :: rest => if k == name then some f else lookup_fn rest name

/-- Insert-or-overwrite in one registry namespace. -/
def set_fn (ns : List (String × PyFunc)) (name : String) (fn : PyFunc) :
    List (String × PyFunc) :=
  match ns with
  | [] => [(name, fn)]
  | (k, f) :: rest =>
      if k == name then (name, fn) :: rest else (k, f) :: set_fn rest name fn

/-- `register_node` (registry.py:14). -/
def register_node (reg : Registry) (name : String) (fn : PyFunc) : Registry :=
  Registry.mk (set_fn reg.nodes name fn) reg.tools

/-- `register_tool` (registry.py:18). -/
def register_tool (reg : Registry) (name : String) (fn : PyFunc) : Registry :=
  Registry.mk reg.nodes (set_fn reg.tools name fn)

/-- `get_node` (registry.py:22): `KeyError` when the name is absent. -/
def get_node (reg : Registry) (name : String) : Except PyErr PyFunc :=
  match lookup_fn reg.nodes name with
  | some f => .ok f
  | none => .error (.nodeFunctionNotRegistered name)

/-- `get_tool` (registry.py:28): `KeyError` when the name is absent. -/
def get_tool (reg : Registry) (name : String) : Except PyErr PyFunc :=
  match lookup_fn reg.tools name with
  | some f => .ok f
  | none => .error (.toolNotRegistered name)

/-- `call_maybe_async` (registry.py:34): invoke a sync or async function
uniformly; a `None` result means the function mutated the state in place,
so the same (now mutated) dict is the result. -/
def call_maybe_async (fn : PyFunc) (state : Dict) : Except PyErr Dict :=
  match
    (match fn.style with
     | .async => fn.run state
     | .sync => fn.run state
     | .syncCoro => fn.run state) with
  | .error e => .error e
  | .ok result =>
      match result.2 with
      | .noneV => .ok result.1
      | .dictV d => .ok d

/-! ## runner.py -/

/-- Python `key.split(".")` on the underlying character list: splitting
an empty string yields `[""]`, and consecutive dots yield empty parts,
exactly as `str.split` with an explicit separator does. -/
def split_chars (cs : List Char) : List (List Char) :=
  match cs with
  | [] => [[]]
  | c :: rest =>
      let r := split_chars rest
      if c = '.' then
        [] :: r
      else
        match r with
        | [] => [[c]]
        | g :: gs => (c :: g) :: gs

/-- Python `key.split(".")` as a list of strings. -/
def split_dotted (s : String) : List String :=
  (split_chars s.data).map (fun cs => String.mk cs)

/-- The loop body of `_get_from_state`: walk the remaining path parts; a
non-dict intermediate value yields `None` instead of an error. -/
def walk_path (v : Value) (parts : List String) : Value :=
  match parts with
  | [] => v
  | p :: ps =>
      match v with
      | .map m => walk_path (dict_get m p) ps
      | _ => .null

/-- `_get_from_state` (runner.py:17): dotted-path lookup in the state. -/
def _get_from_state (state : Dict) (key : String) : Value :=
  walk_path (.map state) (split_dotted key)

/-- Python `bool(x)` coerced to `int` for ordering (`True` orders as 1). -/
def bool_int (b : Bool) : Int :=
  if b then 1 else 0

/-- Python rich-comparison ordering over the modelled value universe:
numbers (with `bool` coercing to `int`) and strings are ordered; every
other combination raises `TypeError`. -/
def py_ord (lhs rhs : Value) : Except PyErr Ordering :=
  match lhs, rhs with
  | .int a, .int b => .ok (compare a b)
  | .bool a, .bool b => .ok (compare (bool_int a) (bool_int b))
  | .bool a, .int b => .ok (compare (bool_int a) b)
  | .int a, .bool b => .ok (compare a (bool_int b))
  | .str a, .str b => .ok (compare a b)
  | _, _ => .error .typeError

/-- `_compare` (runner.py:30).  `op = None` means unconditional; the four
ordering operators can raise `TypeError`; an unknown operator string
yields `False` (runner.py:47). -/
def _compare (lhs : Value) (op : Option String) (rhs : Value) :
    Except PyErr Bool :=
  match op with
  | none => .ok true
  | some o =>
      if o == "==" then .ok (decide (lhs = rhs))
      else if o == "!=" then .ok (decide (lhs ≠ rhs))
      else if o == "<" then (py_ord lhs rhs).map (fun c => c == .lt)
      else if o == ">" then (py_ord lhs rhs).map (fun c => c == .gt)
      else if o == "<=" then (py_ord lhs rhs).map (fun c => c != .gt)
      else if o == ">=" then (py_ord lhs rhs).map (fun c => c != .lt)
      else .ok false

/-- One iteration of the edge loop in `choose_next_node` (runner.py:64):
does this edge match the state?  A falsy `condition_key` means the edge
is unconditional. -/
def edge_matches (state : Dict) (e : EdgeConfig) : Except PyErr Bool :=
  if truthy_str e.condition_key then
    _compare (_get_from_state state (e.condition_key.getD "")) e.operator e.value
  else
    .ok true

/-- The edge loop of `choose_next_node`: first matching edge wins; a
`"__end__"` target means terminate (`None`); an exhausted list means
terminate (`None`). -/
def resolve_edges (state : Dict) (candidates : List EdgeConfig) :
    Except PyErr (Option String) :=
  match candidates with
  | [] => .ok none
  | e :: rest =>
      match edge_matches state e with
      | .error err => .error err
      | .ok m =>
          if m then
            if e.target == "__end__" then .ok none else .ok (some e.target)
          else
            resolve_edges state rest

/-- `choose_next_node` (runner.py:50): filter the graph's edges to those
leaving `current_node` (in declared order) and take the first match. -/
def choose_next_node (g : Graph) (current_node : String) (state : Dict) :
    Except PyErr (Option String) :=
  resolve_edges state (g.edges.filter (fun e => e.source == current_node))

/-- The loop body of `compute_diff` over an explicit key list.  Python
iterates over `set(before) | set(after)`, whose order is unspecified;
the model fixes one order of the union (see `compute_diff`), and the
resulting dict is characterised order-insensitively by its lookups. -/
def diff_over_keys (before after : Dict) (keys : List String) : Dict :=
  match keys with
  | [] => .nil
  | k :: ks =>
      if dict_get before k ≠ dict_get after k then
        .cons k
          (.map (.cons "before" (dict_get before k)
            (.cons "after" (dict_get after k) .nil)))
          (diff_over_keys before after ks)
      else
        diff_over_keys before after ks

/-- `compute_diff` (runner.py:78): shallow diff of the top-level keys. -/
def compute_diff (before after : Dict) : Dict :=
  diff_over_keys before after ((dict_keys before ++ dict_keys after).dedup)

/-- `execute_node` (runner.py:90): resolve the node's implementation in
the proper namespace and invoke it through the adapter. -/
def execute_node (reg : Registry) (node_cfg : NodeConfig) (state : Dict) :
    Except PyErr Dict :=
  match
    (match node_cfg.type with
     | .computation => get_node reg node_cfg.name
     | .tool =>
         if truthy_str node_cfg.tool_name then
           get_tool reg (node_cfg.tool_name.getD "")
         else
           .error (.missingToolName node_cfg.name)) with
  | .error e => .error e
  | .ok fn => call_maybe_async fn state

/-- The `while current is not None and steps < max_steps` loop of
`run_graph` (runner.py:123), with the counter replaced by the remaining
budget `fuel = max_steps - steps`, which decreases structurally.  The
`before = copy.deepcopy(state)` snapshot is a value copy, which value
semantics provide for free. -/
def run_loop (reg : Registry) (g : Graph) :
    Nat → Option String → Dict → List StepLog →
    Except PyErr (Dict × List StepLog)
  | _, none, state, logs => .ok (state, logs)
  | 0, some _, state, logs => .ok (state, logs)
  | fuel + 1, some cur, state, logs =>
      match lookup_node g cur with
      | none => .error (.nodeNotFoundInGraph cur)
      | some node_cfg =>
          match execute_node reg node_cfg state with
          | .error e => .error e
          | .ok new_state =>
              match choose_next_node g cur new_state with
              | .error e => .error e
              | .ok next =>
                  run_loop reg g fuel next new_state
                    (logs ++ [StepLog.mk cur () ()
                      (compute_diff state new_state) node_cfg.description])

/-- `run_graph` (runner.py:105).  The `state = copy.deepcopy(initial_state)`
line is a content-preserving copy; what it buys — that the caller's dict
object is a different cell from the working one — is made explicit in
`run_graph_cells` below. -/
def run_graph (reg : Registry) (g : Graph) (initial_state : Dict)
    (max_steps : Nat) : Except PyErr (Dict × List StepLog) :=
  run_loop reg g max_steps (some g.entrypoint) initial_state []

/-! ## Object-identity model of the deep copy (runner.py:118)

`run_graph` deep-copies the caller-supplied initial state, so the working
dict is a distinct cell.  `RunCells` makes both cells explicit: node
functions only ever receive the `working` cell, and the `caller` cell is
threaded through the run untouched. -/

/-- The two dict objects alive during a run, plus the log. -/
structure RunCells where
  caller : Dict
  working : Dict
  logs : List StepLog

/-- The traversal loop over explicit cells: identical to `run_loop`
except that the caller's cell is carried alongside. -/
def run_loop_cells (reg : Registry) (g : Graph) :
    Nat → Option String → RunCells → Except PyErr RunCells
  | _, none, cells => .ok cells
  | 0, some _, cells => .ok cells
  | fuel + 1, some cur, cells =>
      match lookup_node g cur with
      | none => .error (.nodeNotFoundInGraph cur)
      | some node_cfg =>
          match execute_node reg node_cfg cells.working with
          | .error e => .error e
          | .ok new_state =>
              match choose_next_node g cur new_state with
              | .error e => .error e
              | .ok next =>
                  run_loop_cells reg g fuel next
                    (RunCells.mk cells.caller new_state
                      (cells.logs ++ [StepLog.mk cur () ()
                        (compute_diff cells.working new_state)
                        node_cfg.description]))

/-- `run_graph` with the caller's dict object tracked: line 118 copies
the caller's content into a fresh working cell. -/
def run_graph_cells (reg : Registry) (g : Graph) (caller_state : Dict)
    (max_steps : Nat) : Except PyErr RunCells :=
  run_loop_cells reg g max_steps (some g.entrypoint)
    (RunCells.mk caller_state caller_state [])

/-! ## Concrete step implementations and graphs used in the theorems

The registered functions below are demo step implementations (the core
treats registered functions as arbitrary code satisfying the
state-in/state-or-None-out contract). -/

/-- A step that mutates nothing and returns `None`. -/
def idFn : PyFunc := PyFunc.mk .sync (fun s => .ok (s, .noneV))

/-- Python `int(...)` view of a value for the demo counter (0 default). -/
def as_int (v : Value) : Int :=
  match v with
  | .int n => n
  | _ => 0

/-- A step doing `state["count"] = state.get("count", 0) + 1` in place
and returning `None`. -/
def incFn : PyFunc := PyFunc.mk .sync
  (fun s => .ok (dict_set s "count" (.int (as_int (dict_get s "count") + 1)), .noneV))

/-- A step that raises an exception of its own. -/
def boomFn : PyFunc := PyFunc.mk .sync (fun _ => .error (.userError 7))

/-- Node registrations backing the concrete graphs below; no tools. -/
def demo_registry : Registry := Registry.mk
  [("fin", idFn), ("solo", idFn), ("lone", idFn), ("a", incFn), ("b", incFn),
   ("start", idFn), ("boom", boomFn)] []

/-- A registry with nothing registered. -/
def empty_registry : Registry := Registry.mk [] []

/-- A COMPUTATION node with no tool name and no description. -/
def cfg_comp (n : String) : NodeConfig := NodeConfig.mk n .computation none none

/-- Two-node cycle with only unconditional edges: never terminates on
its own, so only the step budget stops it. -/
def cycle_graph : Graph := Graph.mk "g-cycle" none "a"
  [("a", cfg_comp "a"), ("b", cfg_comp "b")]
  [EdgeConfig.mk "a" "b" none none .null, EdgeConfig.mk "b" "a" none none .null]

/-- One node whose only edge targets the `"__end__"` sentinel; note that
`"__end__"` is not a key of `nodes`. -/
def end_graph : Graph := Graph.mk "g-end" none "fin" [("fin", cfg_comp "fin")]
  [EdgeConfig.mk "fin" "__end__" none none .null]

/-- One node with no outgoing edges at all (dangling node). -/
def dangling_graph : Graph := Graph.mk "g-dangling" none "solo"
  [("solo", cfg_comp "solo")] []

/-- One node whose only outgoing edge has a condition that does not match
the state (the flag is absent, so `null == true` is false). -/
def nomatch_graph : Graph := Graph.mk "g-nomatch" none "lone"
  [("lone", cfg_comp "lone")]
  [EdgeConfig.mk "lone" "next" (some "flag") (some "==") (.bool true)]

/-- One node whose outgoing edge orders a missing key (`null`) against an
int: evaluating the condition raises `TypeError`. -/
def typeclash_graph : Graph := Graph.mk "g-lt" none "start"
  [("start", cfg_comp "start")]
  [EdgeConfig.mk "start" "next" (some "missing") (some "<") (.int 5)]

/-- Like `typeclash_graph` with the other strict ordering operator. -/
def gtclash_graph : Graph := Graph.mk "g-gt" none "start"
  [("start", cfg_comp "start")]
  [EdgeConfig.mk "start" "next" (some "missing") (some ">") (.int 5)]

/-- One node whose step implementation raises `userError 7`. -/
def boom_graph : Graph := Graph.mk "g-boom" none "boom"
  [("boom", cfg_comp "boom")] []

/-- Edges from `"s"`: a distractor from another source, then two edges
whose conditions both match when `k = 1`. -/
def two_match_graph : Graph := Graph.mk "g-two" none "s" []
  [EdgeConfig.mk "x" "q" none none .null,
   EdgeConfig.mk "s" "t1" (some "k") (some "==") (.int 1),
   EdgeConfig.mk "s" "t2" (some "k") (some "==") (.int 1)]

/-- Edges from `"s"`: a non-matching conditional edge first, then a
matching one, then a further matching one. -/
def skip_first_graph : Graph := Graph.mk "g-skip" none "s" []
  [EdgeConfig.mk "s" "t0" (some "k") (some "==") (.int 2),
   EdgeConfig.mk "s" "t1" (some "k") (some "==") (.int 1),
   EdgeConfig.mk "s" "t2" none none .null]

/-- The state binding key `k` to `1`, used with the two graphs above. -/
def k1_state : Dict := .cons "k" (.int 1) .nil

/-! ## Helper lemmas -/

/-- A matching head edge is selected immediately. -/
theorem resolve_edges_cons_true (st : Dict) (e : EdgeConfig)
    (rest : List EdgeConfig) (hm : edge_matches st e = .ok true) :
    resolve_edges st (e :: rest) =
      .ok (if e.target == "__end__" then none else some e.target) := by
  cases hend : (e.target == "__end__") with
  | true => simp [resolve_edges, hm, hend]
  | false => simp [resolve_edges, hm, hend]

/-- A non-matching head edge is skipped (the `continue` branch). -/
theorem resolve_edges_cons_false (st : Dict) (e : EdgeConfig)
    (rest : List EdgeConfig) (hm : edge_matches st e = .ok false) :
    resolve_edges st (e :: rest) = resolve_edges st rest := by
  simp [resolve_edges, hm]

/-- First-match-wins over an explicit split of the candidate list. -/
theorem resolve_edges_first_match (st : Dict) (pre : List EdgeConfig)
    (e : EdgeConfig) (rest : List EdgeConfig)
    (hpre : ∀ e' ∈ pre, edge_matches st e' = .ok false)
    (hm : edge_matches st e = .ok true) :
    resolve_edges st (pre ++ e :: rest) =
      .ok (if e.target == "__end__" then none else some e.target) := by
  induction pre with
  | nil => simpa using resolve_edges_cons_true st e rest hm
  | cons p ps ih =>
      have hp : edge_matches st p = .ok false := hpre p (by simp)
      rw [List.cons_append, resolve_edges_cons_false st p _ hp]
      exact ih (fun e' he' => hpre e' (List.mem_cons_of_mem _ he'))

/-- When every candidate fails its condition, resolution yields `None`. -/
theorem resolve_edges_all_false (st : Dict) (l : List EdgeConfig)
    (h : ∀ e ∈ l, edge_matches st e = .ok false) :
    resolve_edges st l = .ok none := by
  induction l with
  | nil => rfl
  | cons e rest ih =>
      rw [resolve_edges_cons_false st e rest (h e (by simp))]
      exact ih (fun e' he' => h e' (List.mem_cons_of_mem _ he'))

/-- Each loop iteration appends exactly one record, so a normal return
carries at most `fuel` new records. -/
theorem run_loop_length (reg : Registry) (g : Graph) :
    ∀ (fuel : Nat) (cur : Option String) (st : Dict) (logs : List StepLog)
      (out : Dict × List StepLog),
      run_loop reg g fuel cur st logs = .ok out →
      out.2.length ≤ logs.length + fuel := by
  intro fuel
  induction fuel with
  | zero =>
      intro cur st logs out h
      cases cur with
      | none =>
          simp only [run_loop, Except.ok.injEq] at h
          subst h
          simp
      | some c =>
          simp only [run_loop, Except.ok.injEq] at h
          subst h
          simp
  | succ n ih =>
      intro cur st logs out h
      cases cur with
      | none =>
          simp only [run_loop, Except.ok.injEq] at h
          subst h
          simp
      | some c =>
          rw [run_loop] at h
          split at h
          · simp at h
          · split at h
            · simp at h
            · split at h
              · simp at h
              · have := ih _ _ _ out h
                simp only [List.length_append, List.length_cons,
                  List.length_nil] at this
                omega

/-- A key outside a dict's key list has no binding. -/
theorem dict_get?_eq_none_of_not_mem (k : String) :
    ∀ (d : Dict), k ∉ dict_keys d → dict_get? d k = none
  | .nil, _ => rfl
  | .cons k' v rest, h => by
      simp only [dict_keys, List.mem_cons] at h
      push_neg at h
      rw [dict_get?, dict_get?_eq_none_of_not_mem k rest h.2, if_neg]
      intro hb
      exact h.1 (Eq.symm (by simpa using hb))

/-- Lookup in the diff built over an explicit key list: a key is bound
iff it occurs in the list and its value changed, and then it is bound to
the before/after record. -/
theorem dict_get?_diff_over_keys (b a : Dict) :
    ∀ (l : List String) (k : String),
      dict_get? (diff_over_keys b a l) k =
        if k ∈ l ∧ dict_get b k ≠ dict_get a k then
          some (.map (.cons "before" (dict_get b k)
            (.cons "after" (dict_get a k) .nil)))
        else none := by
  intro l
  induction l with
  | nil => intro k; simp [diff_over_keys, dict_get?]
  | cons x xs ih =>
      intro k
      by_cases hx : dict_get b x ≠ dict_get a x
      · rw [diff_over_keys, if_pos hx]
        by_cases hk : x = k
        · subst hk
          simp [dict_get?, hx]
        · rw [dict_get?, if_neg (by simpa using hk), ih k]
          simp [List.mem_cons, Ne.symm hk]
      · rw [diff_over_keys, if_neg hx, ih k]
        by_cases hk : x = k
        · subst hk
          simp only [not_not] at hx
          simp [hx]
        · simp [List.mem_cons, Ne.symm hk]

/-- Lookup characterisation of `compute_diff`: exactly the changed
top-level keys are bound, each to its before/after record. -/
theorem dict_get?_compute_diff (b a : Dict) (k : String) :
    dict_get? (compute_diff b a) k =
      if dict_get b k ≠ dict_get a k then
        some (.map (.cons "before" (dict_get b k)
          (.cons "after" (dict_get a k) .nil)))
      else none := by
  rw [compute_diff, dict_get?_diff_over_keys]
  by_cases hc : dict_get b k ≠ dict_get a k
  · rw [if_pos hc]
    rw [if_pos]
    constructor
    · rw [List.mem_dedup, List.mem_append]
      by_contra hmem
      push_neg at hmem
      have hb : dict_get b k = .null := by
        rw [dict_get, dict_get?_eq_none_of_not_mem k b hmem.1]
      have ha : dict_get a k = .null := by
        rw [dict_get, dict_get?_eq_none_of_not_mem k a hmem.2]
      exact hc (hb.trans ha.symm)
    · exact hc
  · rw [if_neg hc, if_neg]
    intro hand
    exact hc hand.2

/-- The cells-level loop is the plain loop with the caller's cell carried
through untouched. -/
theorem run_loop_cells_eq (reg : Registry) (g : Graph) :
    ∀ (fuel : Nat) (cur : Option String) (c w : Dict) (l : List StepLog),
      run_loop_cells reg g fuel cur (RunCells.mk c w l) =
        (run_loop reg g fuel cur w l).map (fun p => RunCells.mk c p.1 p.2) := by
  intro fuel
  induction fuel with
  | zero => intro cur c w l; cases cur <;> rfl
  | succ n ih =>
      intro cur c w l
      cases cur with
      | none => rfl
      | some cu =>
          rw [run_loop_cells, run_loop]
          dsimp only
          cases hl : lookup_node g cu with
          | none => rfl
          | some cfg =>
              dsimp only
              cases he : execute_node reg cfg w with
              | error e => rfl
              | ok ns =>
                  dsimp only
                  cases hc : choose_next_node g cu ns with
                  | error e => rfl
                  | ok nx => exact ih nx c ns _

/-! ## Claims -/

/-- The adapter's outcome is determined by `fn.run` alone: all three
execution styles go through the same awaited invocation. -/
theorem call_maybe_async_eq (fn : PyFunc) (st : Dict) :
    call_maybe_async fn st =
      match fn.run st with
      | .error e => .error e
      | .ok result =>
          match result.2 with
          | .noneV => .ok result.1
          | .dictV d => .ok d := by
  cases fn with
  | mk c f => cases c <;> rfl

/-- C1: Edge resolution is first-match-wins in declared order.
Conjunct 1: `choose_next_node` considers exactly the edges whose source
equals the current node, in the order they appear in `graph.edges`.
Conjunct 2: whenever that candidate list splits as `pre ++ e :: rest`
with every edge of `pre` failing its condition and `e` unconditional or
matching, the selected transition is `e`'s — whatever `rest` contains,
so every later matching edge is ignored.  Conjunct 3: in a graph with
two simultaneously-matching edges from the same source, the earlier
edge's target is chosen. -/
theorem c1_first_match_wins :
    (∀ (g : Graph) (cur : String) (st : Dict),
      choose_next_node g cur st =
        resolve_edges st (g.edges.filter (fun e => e.source == cur))) ∧
    (∀ (g : Graph) (cur : String) (st : Dict) (pre : List EdgeConfig)
       (e : EdgeConfig) (rest : List EdgeConfig),
      g.edges.filter (fun x => x.source == cur) = pre ++ e :: rest →
      (∀ e' ∈ pre, edge_matches st e' = .ok false) →
      edge_matches st e = .ok true →
      choose_next_node g cur st =
        .ok (if e.target == "__end__" then none else some e.target)) ∧
    choose_next_node two_match_graph "s" k1_state = .ok (some "t1") := by
  refine ⟨fun g cur st => rfl,
    fun g cur st pre e rest hsplit hpre hm => ?_, rfl⟩
  rw [choose_next_node, hsplit]
  exact resolve_edges_first_match st pre e rest hpre hm

/-- Witness for C1: in `skip_first_graph` with `k = 1`, the first
candidate fails, the second matches and is selected, and the third
(also matching) is ignored. -/
theorem c1_first_match_wins_witness :
    choose_next_node skip_first_graph "s" k1_state = .ok (some "t1") := by
  have h := c1_first_match_wins.2.1 skip_first_graph "s" k1_state
    [EdgeConfig.mk "s" "t0" (some "k") (some "==") (.int 2)]
    (EdgeConfig.mk "s" "t1" (some "k") (some "==") (.int 1))
    [EdgeConfig.mk "s" "t2" none none .null]
    rfl (by intro e' he'; simp at he'; subst he'; rfl) rfl
  exact h

/-- C2: Both termination paths are normal, not errors.
Conjunct 1: `choose_next_node` never reads `graph.nodes` (replacing the
node table changes nothing), so selecting `"__end__"` involves no node
lookup.  Conjunct 2: a first-matching edge whose target is `"__end__"`
makes `choose_next_node` return `ok none`.  Conjunct 3: when every
candidate edge fails (in particular when there is none), it returns
`ok none`.  Conjunct 4: a `none` current pointer ends the loop normally
with the accumulated `(state, logs)`.  Conjuncts 5-8, concretely:
`"__end__"` is absent from `end_graph.nodes`, yet the run completes
normally (no `nodeNotFoundInGraph`); a dangling node and a node whose
only edge condition fails also complete normally with the accumulated
state and logs. -/
theorem c2_normal_termination :
    (∀ (g : Graph) (ns : List (String × NodeConfig)) (cur : String) (st : Dict),
      choose_next_node (Graph.mk g.id g.name g.entrypoint ns g.edges) cur st =
        choose_next_node g cur st) ∧
    (∀ (g : Graph) (cur : String) (st : Dict) (pre : List EdgeConfig)
       (e : EdgeConfig) (rest : List EdgeConfig),
      g.edges.filter (fun x => x.source == cur) = pre ++ e :: rest →
      (∀ e' ∈ pre, edge_matches st e' = .ok false) →
      edge_matches st e = .ok true →
      e.target = "__end__" →
      choose_next_node g cur st = .ok none) ∧
    (∀ (g : Graph) (cur : String) (st : Dict),
      (∀ e ∈ g.edges.filter (fun x => x.source == cur),
        edge_matches st e = .ok false) →
      choose_next_node g cur st = .ok none) ∧
    (∀ (reg : Registry) (g : Graph) (fuel : Nat) (st : Dict)
       (logs : List StepLog),
      run_loop reg g fuel none st logs = .ok (st, logs)) ∧
    lookup_node end_graph "__end__" = none ∧
    run_graph demo_registry end_graph .nil 10 =
      .ok (.nil, [StepLog.mk "fin" () () .nil none]) ∧
    run_graph demo_registry dangling_graph .nil 10 =
      .ok (.nil, [StepLog.mk "solo" () () .nil none]) ∧
    run_graph demo_registry nomatch_graph .nil 10 =
      .ok (.nil, [StepLog.mk "lone" () () .nil none]) := by
  refine ⟨fun g ns cur st => by cases g; rfl,
    fun g cur st pre e rest hsplit hpre hm hend => ?_,
    fun g cur st hall => ?_,
    fun reg g fuel st logs => by cases fuel <;> rfl,
    rfl, rfl, rfl, rfl⟩
  · rw [choose_next_node, hsplit,
      resolve_edges_first_match st pre e rest hpre hm]
    simp [hend]
  · rw [choose_next_node, resolve_edges_all_false st _ hall]

/-- Witness for C2 (conjuncts with hypotheses, applied concretely): the
selected `"__end__"` edge terminates, and an all-failing candidate list
terminates. -/
theorem c2_normal_termination_witness :
    choose_next_node end_graph "fin" .nil = .ok none ∧
    choose_next_node nomatch_graph "lone" .nil = .ok none := by
  constructor
  · exact c2_normal_termination.2.1 end_graph "fin" .nil []
      (EdgeConfig.mk "fin" "__end__" none none .null) [] rfl
      (by intro e' he'; simp at he') rfl rfl
  · exact c2_normal_termination.2.2.1 nomatch_graph "lone" .nil
      (by intro e he; simp [nomatch_graph] at he; subst he; rfl)

/-- C3: Step-budget exhaustion is silent.  Conjunct 1: the two-node
cycle with only unconditional edges, run with `max_steps = 10`, returns
normally (no error) with exactly 10 step records — nodes a,b,a,b,... —
and the state accumulated so far (the demo counter reached 10).
Conjunct 2: in general a normal return of `run_graph` carries at most
`max_steps` step records. -/
theorem c3_budget_exhaustion_silent :
    (run_graph demo_registry cycle_graph .nil 10).map
        (fun p => (p.1, p.2.length, p.2.map (fun l => l.node))) =
      .ok (.cons "count" (.int 10) .nil, 10,
        ["a", "b", "a", "b", "a", "b", "a", "b", "a", "b"]) ∧
    (∀ (reg : Registry) (g : Graph) (st : Dict) (m : Nat)
       (out : Dict × List StepLog),
      run_graph reg g st m = .ok out → out.2.length ≤ m) := by
  refine ⟨rfl, fun reg g st m out h => ?_⟩
  simpa using run_loop_length reg g m (some g.entrypoint) st [] out h

/-- Witness for C3's general bound at a concrete run. -/
theorem c3_budget_exhaustion_silent_witness :
    [StepLog.mk "solo" () () Entries.nil none].length ≤ 10 :=
  c3_budget_exhaustion_silent.2 demo_registry dangling_graph .nil 10
    (Entries.nil, [StepLog.mk "solo" () () .nil none]) rfl

/-- C4 counterexample: the claim has `run_graph` failing exactly with
the three specified error kinds, step-implementation errors apart.  In
`gtclash_graph` the only function invoked (`idFn`, at the only state it
is invoked on) returns normally, yet the run fails — with the
comparison `TypeError` of condition evaluation, which is none of the
three kinds. -/
theorem c4_error_kinds_counterexample :
    run_graph demo_registry gtclash_graph .nil 10 = .error .typeError ∧
    PyErr.typeError.isNodeNotFoundInGraph = false ∧
    PyErr.typeError.isMissingToolName = false ∧
    PyErr.typeError.isRegistryNotFound = false ∧
    idFn.run .nil = .ok (.nil, .noneV) :=
  ⟨rfl, rfl, rfl, rfl, rfl⟩

/-- C4 (amended): `run_graph` fails with the three specified error
kinds, each fatal and returning no result, and errors raised by step
implementations propagate unchanged; additionally — as the
counterexample forces — condition evaluation can raise a comparison
`TypeError` that likewise aborts the run, so the three kinds are not
exhaustive.  Conjunct 1: a current node absent from `graph.nodes` fails
the loop with `nodeNotFoundInGraph` (no step record is produced: the
error return carries none).  Conjunct 2: a TOOL node with unset
`tool_name` fails with `missingToolName`.  Conjuncts 3-4: a missing
registry entry fails with the NotFound error carrying the key — the
node-function namespace keyed by the node's name, the tool-function
namespace keyed by its tool name.  Conjunct 5: an exception raised by
the step implementation itself propagates unchanged through
`execute_node`.  Conjunct 6: whatever error the first step raises,
`run_graph` fails with exactly that error and returns no result. -/
theorem c4_error_kinds :
    (∀ (reg : Registry) (g : Graph) (fuel : Nat) (cur : String) (st : Dict)
       (logs : List StepLog),
      lookup_node g cur = none →
      run_loop reg g (fuel + 1) (some cur) st logs =
        .error (.nodeNotFoundInGraph cur)) ∧
    (∀ (reg : Registry) (cfg : NodeConfig) (st : Dict),
      cfg.type = .tool → cfg.tool_name = none →
      execute_node reg cfg st = .error (.missingToolName cfg.name)) ∧
    (∀ (reg : Registry) (cfg : NodeConfig) (st : Dict),
      cfg.type = .computation → lookup_fn reg.nodes cfg.name = none →
      execute_node reg cfg st = .error (.nodeFunctionNotRegistered cfg.name)) ∧
    (∀ (reg : Registry) (cfg : NodeConfig) (st : Dict) (t : String),
      cfg.type = .tool → cfg.tool_name = some t → t ≠ "" →
      lookup_fn reg.tools t = none →
      execute_node reg cfg st = .error (.toolNotRegistered t)) ∧
    (∀ (reg : Registry) (cfg : NodeConfig) (st : Dict) (fn : PyFunc)
       (e : PyErr),
      cfg.type = .computation → lookup_fn reg.nodes cfg.name = some fn →
      fn.run st = .error e →
      execute_node reg cfg st = .error e) ∧
    (∀ (reg : Registry) (g : Graph) (st : Dict) (m : Nat)
       (cfg : NodeConfig) (e : PyErr),
      0 < m →
      lookup_node g g.entrypoint = some cfg →
      execute_node reg cfg st = .error e →
      run_graph reg g st m = .error e) := by
  refine ⟨fun reg g fuel cur st logs hl => ?_,
    fun reg cfg st ht htn => ?_,
    fun reg cfg st ht hl => ?_,
    fun reg cfg st t ht htn hne hl => ?_,
    fun reg cfg st fn e ht hl hrun => ?_,
    fun reg g st m cfg e hm hl he => ?_⟩
  · rw [run_loop, hl]
  · simp [execute_node, ht, htn, truthy_str]
  · simp [execute_node, ht, get_node, hl]
  · simp [execute_node, ht, htn, truthy_str, get_tool, hl, hne]
  · simp only [execute_node, ht, get_node, hl]
    rw [call_maybe_async_eq, hrun]
  · cases m with
    | zero => omega
    | succ n => simp only [run_graph, run_loop, hl, he]

/-- Witness for C4 (amended), one concrete instance per conjunct. -/
theorem c4_error_kinds_witness :
    run_loop empty_registry (Graph.mk "g-ghost" none "ghost" [] []) 1
        (some "ghost") .nil [] = .error (.nodeNotFoundInGraph "ghost") ∧
    execute_node empty_registry (NodeConfig.mk "t" .tool none none) .nil =
      .error (.missingToolName "t") ∧
    execute_node empty_registry (cfg_comp "nope") .nil =
      .error (.nodeFunctionNotRegistered "nope") ∧
    execute_node empty_registry (NodeConfig.mk "t" .tool (some "hammer") none)
        .nil = .error (.toolNotRegistered "hammer") ∧
    execute_node demo_registry (cfg_comp "boom") .nil =
      .error (.userError 7) ∧
    run_graph demo_registry boom_graph .nil 5 = .error (.userError 7) :=
  ⟨c4_error_kinds.1 empty_registry (Graph.mk "g-ghost" none "ghost" [] []) 0
      "ghost" .nil [] rfl,
    c4_error_kinds.2.1 empty_registry (NodeConfig.mk "t" .tool none none)
      .nil rfl rfl,
    c4_error_kinds.2.2.1 empty_registry (cfg_comp "nope") .nil rfl rfl,
    c4_error_kinds.2.2.2.1 empty_registry
      (NodeConfig.mk "t" .tool (some "hammer") none) .nil "hammer" rfl rfl
      (by decide) rfl,
    c4_error_kinds.2.2.2.2.1 demo_registry (cfg_comp "boom") .nil boomFn
      (.userError 7) rfl rfl rfl,
    c4_error_kinds.2.2.2.2.2 demo_registry boom_graph .nil 5
      (cfg_comp "boom") (.userError 7) (by decide) rfl rfl⟩

/-- C5: The shallow diff binds every top-level key whose value changed
between the snapshots to its before/after record, reporting an absent
side as `null`, and binds nothing else — stated as a complete lookup
characterisation of the diff (conjunct 1) — and on the claim's concrete
example the diff is exactly the two-entry dict (conjunct 2). -/
theorem c5_shallow_diff :
    (∀ (b a : Dict) (k : String),
      dict_get? (compute_diff b a) k =
        if dict_get b k ≠ dict_get a k then
          some (.map (.cons "before" (dict_get b k)
            (.cons "after" (dict_get a k) .nil)))
        else none) ∧
    compute_diff (.cons "x" (.int 1) (.cons "y" (.int 2) .nil))
        (.cons "x" (.int 1) (.cons "y" (.int 3) (.cons "z" (.int 4) .nil))) =
      .cons "y" (.map (.cons "before" (.int 2) (.cons "after" (.int 3) .nil)))
        (.cons "z" (.map (.cons "before" .null (.cons "after" (.int 4) .nil)))
          .nil) :=
  ⟨dict_get?_compute_diff, rfl⟩

/-- C6: Dotted-path lookup splits the key on the dot and walks the state
map: it finds nested values (conjunct 1), returns the null marker when
an intermediate value is not a map — concretely (conjunct 2) and in
general for any non-map value with path parts remaining (conjunct 3) —
and never raises (its type is `Value`, not `Except`). -/
theorem c6_dotted_lookup :
    _get_from_state (.cons "a" (.map (.cons "b" (.int 5) .nil)) .nil) "a.b" =
      .int 5 ∧
    _get_from_state (.cons "a" (.int 1) .nil) "a.b" = .null ∧
    (∀ (v : Value) (p : String) (ps : List String),
      (∀ m : Entries, v ≠ .map m) → walk_path v (p :: ps) = .null) := by
  refine ⟨rfl, rfl, fun v p ps hv => ?_⟩
  cases v with
  | map m => exact absurd rfl (hv m)
  | null => rfl
  | bool b => rfl
  | int n => rfl
  | str s => rfl

/-- Witness for C6's general conjunct at a concrete non-map value. -/
theorem c6_dotted_lookup_witness : walk_path (.int 1) ["b"] = .null :=
  c6_dotted_lookup.2.2 (.int 1) "b" [] (fun m => by simp)

/-- C7: `run_graph` operates on a deep copy of the caller-supplied
initial state.  In the object-identity model `run_graph_cells` — where
the deep copy of runner.py:118 initialises a working cell distinct from
the caller's cell, and node functions only ever receive the working
cell — every run agrees with `run_graph` on the working state and logs
while the caller's cell is returned exactly as supplied, whatever the
registered node functions do to the working state. -/
theorem c7_deep_copy_isolation :
    ∀ (reg : Registry) (g : Graph) (initial_state : Dict) (m : Nat),
      run_graph_cells reg g initial_state m =
        (run_graph reg g initial_state m).map
          (fun p => RunCells.mk initial_state p.1 p.2) :=
  fun reg g s m => run_loop_cells_eq reg g m (some g.entrypoint) s s []

/-- C8: The registry's uniform invocation adapter returns the
function's returned state map when the function returns one, and the
very same state map that was passed in — i.e. its content after the
in-place mutations — when the function returns `None`; and it behaves
identically for all three execution styles (coroutine function, plain
function, plain function returning a coroutine), so the convention
holds regardless of whether the function is synchronous or suspending. -/
theorem c8_adapter_convention :
    (∀ (c c' : CallStyle) (f : Dict → Except PyErr (Dict × RetVal))
       (st : Dict),
      call_maybe_async (PyFunc.mk c f) st =
        call_maybe_async (PyFunc.mk c' f) st) ∧
    (∀ (fn : PyFunc) (st mutated : Dict),
      fn.run st = .ok (mutated, .noneV) →
      call_maybe_async fn st = .ok mutated) ∧
    (∀ (fn : PyFunc) (st mutated ret : Dict),
      fn.run st = .ok (mutated, .dictV ret) →
      call_maybe_async fn st = .ok ret) := by
  refine ⟨fun c c' f st => by cases c <;> cases c' <;> rfl,
    fun fn st mutated h => by rw [call_maybe_async_eq, h],
    fun fn st mutated ret h => by rw [call_maybe_async_eq, h]⟩

/-- Witness for C8: a sync function that mutates the state in place and
returns `None` yields the mutated content through the adapter. -/
theorem c8_adapter_convention_witness :
    call_maybe_async incFn .nil = .ok (.cons "count" (.int 1) .nil) :=
  c8_adapter_convention.2.1 incFn .nil (.cons "count" (.int 1) .nil) rfl

/-- C9: An edge whose `condition_key` is set but whose operator is
absent always matches: whenever `operator = none`, `edge_matches` is
`ok true` for every state, condition key, and value field — exactly the
behaviour of an unconditional edge, irrespective of the looked-up
value. -/
theorem c9_null_operator_matches :
    ∀ (st : Dict) (e : EdgeConfig), e.operator = none →
      edge_matches st e = .ok true := by
  intro st e hop
  rw [edge_matches, hop]
  split <;> rfl

/-- Witness for C9: a present condition key with a null operator
matches even though the key is absent from the state. -/
theorem c9_null_operator_matches_witness :
    edge_matches .nil (EdgeConfig.mk "s" "t" (some "k") none (.int 3)) =
      .ok true :=
  c9_null_operator_matches .nil (EdgeConfig.mk "s" "t" (some "k") none (.int 3))
    rfl

/-- C10: The code resolves the spec's open cross-type comparison
question by raising: ordering the null marker of a missing key against
an int raises `TypeError` inside `_compare` (conjunct 1), and that
error propagates out of `run_graph` and aborts the run instead of the
edge being treated as non-matching (conjunct 2). -/
theorem c10_comparison_raises :
    _compare .null (some "<") (.int 5) = .error .typeError ∧
    run_graph demo_registry typeclash_graph .nil 10 = .error .typeError :=
  ⟨rfl, rfl⟩

end FlowForge
